import Mathlib

/-!
Verification of the vimeo-dl script (src/vimeo-dl.py) against its
natural-language specification.  Lines of text are modelled as `List Char`;
Python string primitives (strip, startswith, `in`, replace, lower, ljust,
capitalize) are embedded as executable functions below, and the three core
components of the program — the line classifier `clean_progress_output`, the
render state machine of `VimeoDownloader.download`, and the retry controller —
are translated from the source.
-/

/-- Python `str.isspace` characters relevant to `str.strip()` with no
argument: space, tab, newline, carriage return, vertical tab, form feed. -/
def pyIsSpace (c : Char) : Bool :=
  c == ' ' || c == '\t' || c == '\n' || c == '\r' || c == '\x0b' || c == '\x0c'

/-- Python `str.lstrip()`. -/
def pyLstrip (l : List Char) : List Char := l.dropWhile pyIsSpace

/-- Python `str.rstrip()`. -/
def pyRstrip (l : List Char) : List Char := (l.reverse.dropWhile pyIsSpace).reverse

/-- Python `str.strip()`: drop whitespace from both ends. -/
def pyStrip (l : List Char) : List Char := pyRstrip (pyLstrip l)

/-- Python substring test `pat in l` (membership of a contiguous substring). -/
def containsSub (pat : List Char) : List Char → Bool
  | [] => pat.isEmpty
  | c :: rest => pat.isPrefixOf (c :: rest) || containsSub pat rest

/-- Python `str.lower()` (the lines at issue are ASCII). -/
def pyLower (l : List Char) : List Char := l.map Char.toLower

/-- Recursion core of `pyReplace`, structurally recursive on a fuel that
bounds the input length (each step consumes at least one character, so fuel
equal to the length is exact and the fuel-exhausted branch is unreachable). -/
def pyReplaceFuel (pat rep : List Char) : Nat → List Char → List Char
  | 0, l => l
  | _ + 1, [] => []
  | fuel + 1, c :: rest =>
    if pat ≠ [] ∧ pat.isPrefixOf (c :: rest) then
      rep ++ pyReplaceFuel pat rep fuel (rest.drop (pat.length - 1))
    else
      c :: pyReplaceFuel pat rep fuel rest

/-- Python `str.replace(pat, rep)`: replace every non-overlapping occurrence,
left to right.  The call sites in the source use nonempty patterns; for an
empty pattern this returns the list unchanged. -/
def pyReplace (pat rep l : List Char) : List Char :=
  pyReplaceFuel pat rep l.length l

/-- Python `str.ljust(w)`: pad on the right with spaces up to width `w`. -/
def ljust (l : List Char) (w : Nat) : List Char :=
  l ++ List.replicate (w - l.length) ' '

/-- Python `str.capitalize()`: first character upper-cased, rest lower-cased. -/
def pyCapitalize : List Char → List Char
  | [] => []
  | c :: rest => c.toUpper :: rest.map Char.toLower

/-- The categories returned by `clean_progress_output` (the string tags
"PROGRESS", "STATUS_INFO", "STATUS_MERGE", "ERROR_LINE", "IGNORE" of the
source). -/
inductive LineCategory where
  | progress
  | statusInfo
  | statusMerge
  | errorLine
  | ignore
deriving DecidableEq, Repr

/-- Guard of the first branch of `clean_progress_output` (src line 42-47):
starts with the download marker, has a percent sign, a byte-unit token and
the substring " of ". -/
def progressGuard (line : List Char) : Bool :=
  "[download]".toList.isPrefixOf line &&
  containsSub "%".toList line &&
  (containsSub "MiB".toList line || containsSub "KiB".toList line ||
   containsSub "GiB".toList line || containsSub "bytes".toList line) &&
  containsSub " of ".toList line

/-- Guard of the `[vimeo]` branch (src line 52). -/
def vimeoGuard (line : List Char) : Bool :=
  "[vimeo]".toList.isPrefixOf line

/-- Guard of the merge branch (src line 57). -/
def mergeGuard (line : List Char) : Bool :=
  containsSub "Merging formats".toList line ||
  (containsSub "[ffmpeg]".toList line &&
   containsSub "Merging".toList (pyLower line))

/-- Guard of the `[info] ... Video title:` branch (src line 60). -/
def infoTitleGuard (line : List Char) : Bool :=
  "[info]".toList.isPrefixOf line && containsSub "Video title:".toList line

/-- Guard of the `[download] ... Destination:` branch (src line 62). -/
def destinationGuard (line : List Char) : Bool :=
  "[download]".toList.isPrefixOf line && containsSub "Destination:".toList line

/-- Guard of the already-downloaded branch (src line 64). -/
def alreadyDownloadedGuard (line : List Char) : Bool :=
  "[download]".toList.isPrefixOf line &&
  containsSub "has already been downloaded".toList line

/-- Guard of the fixup branch (src line 66). -/
def fixupGuard (line : List Char) : Bool :=
  "[FixupM3u8]".toList.isPrefixOf line || "[FixupTimestamp]".toList.isPrefixOf line

/-- Guard of the error branch (src lines 70-75). -/
def errorGuard (line : List Char) : Bool :=
  "error:".toList.isPrefixOf (pyLower line) ||
  "yt-dlp: error:".toList.isPrefixOf (pyLower line) ||
  ("WARNING:".toList.isPrefixOf line &&
   containsSub "unable to download video data".toList (pyLower line)) ||
  ("ERROR:".toList.isPrefixOf line &&
   containsSub "giving up".toList (pyLower line))

/-- `clean_progress_output` (src lines 37-78): categorise and clean one
yt-dlp output line.  The input is stripped first (src line 39). -/
def clean_progress_output (line0 : List Char) : LineCategory × Option (List Char) :=
  let line := pyStrip line0
  if progressGuard line then
    (.progress, some (pyStrip (pyReplace "[download]".toList "Progress:".toList line)))
  else if vimeoGuard line then
    if containsSub "Extracting URL:".toList line then
      (.statusInfo, some "Extracting info...".toList)
    else if containsSub "Downloading webpage".toList line then
      (.statusInfo, some "Fetching page...".toList)
    else (.ignore, none)
  else if mergeGuard line then
    (.statusMerge, some "Merging streams...".toList)
  else if infoTitleGuard line then
    (.statusInfo, some (pyStrip (pyReplace "[info]".toList "Info:".toList line)))
  else if destinationGuard line then
    (.ignore, none)
  else if alreadyDownloadedGuard line then
    (.statusInfo, some "Video already downloaded. Skipping...".toList)
  else if fixupGuard line then
    (.statusInfo, some "Finalizing stream...".toList)
  else if errorGuard line then
    (.errorLine, some line)
  else
    (.ignore, none)

/-- Disjunction of the guards of classification rules 1-8 (rule 2 is the
whole `[vimeo]` branch), applied as the source does — to the stripped line. -/
def matchesAnyRule (line0 : List Char) : Bool :=
  let line := pyStrip line0
  progressGuard line || vimeoGuard line || mergeGuard line ||
  infoTitleGuard line || destinationGuard line || alreadyDownloadedGuard line ||
  fixupGuard line || errorGuard line

/-- A classified event as consumed by the render loop: the pair
`(line_type, message)` returned by `clean_progress_output`. -/
abbrev Event := LineCategory × Option (List Char)

/-- The per-attempt mutable variables of the output loop of
`VimeoDownloader.download` (src lines 200-205) together with the
controller variable `last_error_message` (src line 171), which the loop
body also mutates (src line 230). -/
structure RenderSt where
  lastLineEndedWithCr : Bool
  displayingProgress : Bool
  spinnerIdx : Nat
  spinnerCounter : Nat
  lastErrorMessage : List Char
deriving DecidableEq, Repr

/-- The spec field `cursorAtLineStart`: the cursor is at a fresh line start
exactly when the last write did not end with a bare carriage return. -/
def cursorAtLineStart (s : RenderSt) : Bool := !s.lastLineEndedWithCr

/-- `spinner_frames` (src line 200). -/
def spinner_frames : List Char := ['⢿', '⣻', '⣽', '⣾', '⣷', '⣯', '⣟', '⡿']

/-- `PROGRESS_LINE_WIDTH` (src line 203). -/
def PROGRESS_LINE_WIDTH : Nat := 80

/-- One write to the display: a raw `sys.stdout.write` or a logger call
(logger output goes to stdout as a full line). -/
inductive OutWrite where
  | stdoutWrite (s : List Char)
  | logInfo (s : List Char)
  | logWarning (s : List Char)
  | logError (s : List Char)
deriving DecidableEq, Repr

/-- Would processing one more IGNORE line emit a spinner frame in state `s`?
(src lines 232-234: only when no progress line is showing and the
incremented counter is a multiple of 5). -/
def spinnerEmits (s : RenderSt) : Bool :=
  !s.displayingProgress && (s.spinnerCounter + 1) % 5 == 0

/-- The STATUS_INFO / STATUS_MERGE / ERROR_LINE branch of the output loop
(src lines 223-230): close a pending progress line, log the message, and for
ERROR_LINE also record it as the last error message. -/
def statusLikeStep (s : RenderSt) (message : Option (List Char))
    (isErrorLine : Bool) : RenderSt × List OutWrite :=
  let pre : List OutWrite :=
    if s.lastLineEndedWithCr then [.stdoutWrite ['\n']] else []
  ({ s with
      lastLineEndedWithCr := false,
      displayingProgress := false,
      lastErrorMessage :=
        if isErrorLine then message.getD [] else s.lastErrorMessage },
   pre ++ [.logInfo (message.getD [])])

/-- One iteration of the output loop of `VimeoDownloader.download` for one
classified line (src lines 216-239), returning the new state and the writes
performed.  The source only reaches the PROGRESS and status branches with a
message present, so `Option.getD` never supplies its default there. -/
def processEvent (s : RenderSt) (e : Event) : RenderSt × List OutWrite :=
  match e with
  | (.progress, message) =>
    ({ s with lastLineEndedWithCr := true, displayingProgress := true },
     [.stdoutWrite (ljust (message.getD []) PROGRESS_LINE_WIDTH ++ ['\r'])])
  | (.statusInfo, message) => statusLikeStep s message false
  | (.statusMerge, message) => statusLikeStep s message false
  | (.errorLine, message) => statusLikeStep s message true
  | (.ignore, _) =>
    if s.displayingProgress then (s, [])
    else if (s.spinnerCounter + 1) % 5 == 0 then
      let spinnerChar := spinner_frames.getD s.spinnerIdx ' '
      ({ s with
          spinnerCounter := s.spinnerCounter + 1,
          spinnerIdx := (s.spinnerIdx + 1) % spinner_frames.length,
          lastLineEndedWithCr := true },
       [.stdoutWrite (ljust (spinnerChar :: " Processing...".toList)
          PROGRESS_LINE_WIDTH ++ ['\r'])])
    else
      ({ s with spinnerCounter := s.spinnerCounter + 1 }, [])

/-- State after one event, discarding the writes. -/
def stepState (s : RenderSt) (e : Event) : RenderSt := (processEvent s e).1

/-- Fold the render loop over a sequence of already-classified events. -/
def runEvents (s : RenderSt) (evs : List Event) : RenderSt :=
  evs.foldl stepState s

/-- Classify then render each raw output line in order, accumulating the
writes (the body of the `while True` loop, src lines 209-241). -/
def processLines (s : RenderSt) : List (List Char) → RenderSt × List OutWrite
  | [] => (s, [])
  | l :: rest =>
    let step := processEvent s (clean_progress_output l)
    let tail := processLines step.1 rest
    (tail.1, step.2 ++ tail.2)

/-- The fresh values given to the loop variables at the start of each
browser attempt (src lines 201-205), with `last_error_message` taken from
the enclosing scope (src line 171): it is the only one of the five that is
not freshly initialised inside the loop. -/
def initAttemptRenderState (lastErr : List Char) : RenderSt :=
  { lastLineEndedWithCr := false
    displayingProgress := false
    spinnerIdx := 0
    spinnerCounter := 0
    lastErrorMessage := lastErr }

/-- Outcome of launching one backend invocation: the child ran to completion
with the given combined-output lines and exit code, or the launch raised
`subprocess.CalledProcessError`, or some other exception (src lines 190-267). -/
inductive AttemptOutcome where
  | completed (lines : List (List Char)) (exitCode : Int)
  | calledProcessError (msg : List Char)
  | unexpectedExc (msg : List Char)

/-- Does an attempt outcome count as success (exit code 0, src line 249)? -/
def outcomeSucceeds : AttemptOutcome → Bool
  | .completed _ exitCode => exitCode == 0
  | _ => false

/-- The generic message synthesised after a non-zero exit
(src line 258): `yt-dlp exited with code {returncode} using {browser}.` -/
def genericExitMessage (exitCode : Int) (browser : List Char) : List Char :=
  "yt-dlp exited with code ".toList ++ (toString exitCode).toList ++
  " using ".toList ++ browser ++ ".".toList

/-- Result of one iteration of the browser loop. -/
structure AttemptRun where
  succeeded : Bool
  lastError : List Char
  writes : List OutWrite

/-- One iteration of the browser loop of `VimeoDownloader.download`
(src lines 173-267): log the attempt, run the render loop over the child
output, close a pending progress line, then inspect the exit status.  After
a non-zero exit the source keeps `last_error_message` only when it contains
the literal substring "ERROR_LINE" (src line 257) and otherwise overwrites
it with the generic message. -/
def runAttempt (browser : List Char) (outcome : AttemptOutcome)
    (lastErrIn : List Char) : AttemptRun :=
  let tryingLog : OutWrite :=
    .logInfo ("Trying ".toList ++ pyCapitalize browser ++ " browser cookies...".toList)
  match outcome with
  | .completed lines exitCode =>
    let s0 := initAttemptRenderState lastErrIn
    let run := processLines s0 lines
    let closing : List OutWrite :=
      if run.1.lastLineEndedWithCr then [.stdoutWrite ['\n']] else []
    if exitCode == 0 then
      { succeeded := true
        lastError := run.1.lastErrorMessage
        writes := tryingLog :: run.2 ++ closing ++
          [.logInfo ("✅ Download successful using ".toList ++
            pyCapitalize browser ++ " browser cookies!".toList)] }
    else
      { succeeded := false
        lastError :=
          if containsSub "ERROR_LINE".toList run.1.lastErrorMessage then
            run.1.lastErrorMessage
          else genericExitMessage exitCode browser
        writes := tryingLog :: run.2 ++ closing ++
          [.logWarning ("❌ ".toList ++ pyCapitalize browser ++
            " browser failed (exit code ".toList ++
            (toString exitCode).toList ++ ")".toList)] }
  | .calledProcessError msg =>
    { succeeded := false
      lastError := "Execution failed with ".toList ++ browser ++ ": ".toList ++ msg
      writes := [tryingLog,
        .logError ("❌ ".toList ++ pyCapitalize browser ++
          " execution failed: ".toList ++ msg)] }
  | .unexpectedExc msg =>
    { succeeded := false
      lastError := "Unexpected error with ".toList ++ browser ++ ": ".toList ++ msg
      writes := [tryingLog,
        .logError ("❌ ".toList ++ "Unexpected error with ".toList ++
          pyCapitalize browser ++ ": ".toList ++ msg)] }

/-- `VimeoDownloader.SUPPORTED_BROWSERS` (src lines 81-88). -/
def SUPPORTED_BROWSERS : List (List Char) :=
  ["chrome".toList, "firefox".toList, "edge".toList,
   "brave".toList, "chromium".toList, "safari".toList]

/-- The browser loop (src lines 173-267) over a list of candidate sources,
threading `last_error_message` and counting backend invocations; stops at
the first successful attempt.  The environment `env` gives the outcome of
the backend invocation for each browser. -/
def runBrowsers (env : List Char → AttemptOutcome) :
    List (List Char) → List Char → Nat × Bool × List Char
  | [], le => (0, false, le)
  | b :: rest, le =>
    let r := runAttempt b (env b) le
    if r.succeeded then (1, true, r.lastError)
    else
      let t := runBrowsers env rest r.lastError
      (t.1 + 1, t.2.1, t.2.2)

/-- Observable outcome of `VimeoDownloader.download`. -/
structure DownloadOutcome where
  invocations : Nat
  success : Bool
  lastError : List Char
  result : Except (List Char) Unit

/-- `VimeoDownloader.download` (src lines 167-270): try every supported
browser in order starting from `last_error_message = "Unknown error."`;
if none succeeds, raise `DownloadError` with the final message. -/
def download (env : List Char → AttemptOutcome) : DownloadOutcome :=
  let t := runBrowsers env SUPPORTED_BROWSERS "Unknown error.".toList
  { invocations := t.1
    success := t.2.1
    lastError := t.2.2
    result :=
      if t.2.1 then .ok ()
      else .error ("All browser attempts failed. Last known error: ".toList ++ t.2.2) }

/-- Position (0-based) of the first candidate browser whose backend
invocation exits with code 0, if any. -/
def firstSuccessIdx (env : List Char → AttemptOutcome) :
    List (List Char) → Option Nat
  | [] => none
  | b :: rest =>
    if outcomeSucceeds (env b) then some 0
    else (firstSuccessIdx env rest).map (· + 1)

/-- The value of `last_error_message` when attempt number `i` (1-based)
begins: the value left by the first `i - 1` iterations of the browser loop. -/
def lastErrorBeforeAttempt (env : List Char → AttemptOutcome) (i : Nat) :
    List Char :=
  (runBrowsers env (SUPPORTED_BROWSERS.take (i - 1)) "Unknown error.".toList).2.2

/-- The exception classes the script declares or handles in
`VimeoDownloader.run` (src lines 25-35 and 298-312). -/
inductive RunException where
  | keyboardInterrupt
  | dependencyError (msg : List Char)
  | urlError (msg : List Char)
  | downloadError (msg : List Char)
  | unexpected (msg : List Char)
deriving DecidableEq, Repr

/-- What happens during the `try` block of `VimeoDownloader.run`
(src lines 275-296): an interrupt or an unexpected exception from a
collaborator may arrive, or the prompts return the two URLs and
`self.download` runs against the backend environment. -/
inductive TryBodyEvent where
  | interrupt
  | unexpectedExc (msg : List Char)
  | prompts (vimeoUrl refererUrl : List Char) (env : List Char → AttemptOutcome)

/-- Result of the `try` block of `run`: the only raise sites reachable from
inside it are `KeyboardInterrupt`, an unexpected exception, and the
`DownloadError` raised by `download` after exhausting all browsers
(src line 270).  `get_urls` never raises: `questionary` re-prompts until its
validator accepts (src lines 150-165). -/
def tryBody : TryBodyEvent → Except RunException Unit
  | .interrupt => .error .keyboardInterrupt
  | .unexpectedExc msg => .error (.unexpected msg)
  | .prompts _ _ env =>
    match (download env).result with
    | .ok () => .ok ()
    | .error msg => .error (.downloadError msg)

/-- Observable outcome of one process run: the exit code, whether
`VimeoDownloader.cleanup` ran, and the human-readable message logged by the
error handler (if one ran). -/
structure ExitReport where
  exitCode : Nat
  cleanupRan : Bool
  loggedErrorMsg : Option (List Char)
deriving DecidableEq, Repr

/-- The `except`/`finally` clauses of `VimeoDownloader.run`
(src lines 298-314): every handled exception logs a message and calls
`sys.exit(1)`, and the `finally` block runs `cleanup` on every path. -/
def handleRun : Except RunException Unit → ExitReport
  | .ok () =>
    { exitCode := 0, cleanupRan := true, loggedErrorMsg := none }
  | .error .keyboardInterrupt =>
    { exitCode := 1, cleanupRan := true,
      loggedErrorMsg := some "\nOperation cancelled by user.".toList }
  | .error (.dependencyError msg) =>
    { exitCode := 1, cleanupRan := true,
      loggedErrorMsg := some ("Setup Error: ".toList ++ msg) }
  | .error (.urlError msg) =>
    { exitCode := 1, cleanupRan := true,
      loggedErrorMsg := some ("URL Error: ".toList ++ msg) }
  | .error (.downloadError msg) =>
    { exitCode := 1, cleanupRan := true,
      loggedErrorMsg := some ("Download Error: ".toList ++ msg) }
  | .error (.unexpected msg) =>
    { exitCode := 1, cleanupRan := true,
      loggedErrorMsg := some ("Unexpected error: ".toList ++ msg) }

/-- What happens when `main` (src lines 316-318) starts: either
`check_dependencies` finds missing tools while constructing
`VimeoDownloader` — before `run` and its `try`/`finally` are entered — or
construction succeeds and `run` executes with the given try-block event. -/
inductive ProgramEvent where
  | depsMissing (missing : List (List Char))
  | runBody (ev : TryBodyEvent)

/-- `main` (src lines 316-321).  A `DependencyError` raised inside
`VimeoDownloader.__init__` (src line 91) is not caught anywhere: the
interpreter prints a traceback to stderr (no logger message) and exits with
status 1, and `run`'s `finally` block — hence `cleanup` — never executes. -/
def mainModel : ProgramEvent → ExitReport
  | .depsMissing _ =>
    { exitCode := 1, cleanupRan := false, loggedErrorMsg := none }
  | .runBody ev => handleRun (tryBody ev)

/-- Characters Python accepts inside a URL scheme after the first letter. -/
def schemeChar (c : Char) : Bool :=
  c.isAlpha || c.isDigit || c == '+' || c == '-' || c == '.'

/-- Modelled from the Python standard library: the scheme extraction of
`urllib.parse.urlparse` — if the text before the first `:` is a nonempty
run of scheme characters starting with a letter, it is the scheme
(lower-cased) and parsing continues after the `:`.  Returns the scheme and
the remainder. -/
def splitScheme (url : List Char) : List Char × List Char :=
  let pre := url.takeWhile (· ≠ ':')
  if pre.length < url.length ∧ pre ≠ [] ∧
      (pre.headD ' ').isAlpha ∧ pre.all schemeChar then
    (pyLower pre, url.drop (pre.length + 1))
  else ([], url)

/-- Modelled from the Python standard library: the netloc extraction of
`urllib.parse.urlparse` — if the rest begins with `//`, the netloc runs up
to the next `/`, `?` or `#`.  (The IPv6-bracket and NFKC checks that can
make `urlparse` raise are not modelled; `validate_url` maps a raise to
`False` anyway.)  Returns `(scheme, netloc)`. -/
def urlparseModel (url : List Char) : List Char × List Char :=
  let s := splitScheme url
  let rest := s.2
  if "//".toList.isPrefixOf rest then
    (s.1, (rest.drop 2).takeWhile (fun c => c ≠ '/' ∧ c ≠ '?' ∧ c ≠ '#'))
  else (s.1, [])

/-- `VimeoDownloader.validate_url` (src lines 137-148): the URL is valid
when both scheme and netloc are non-empty and, if a required domain is
given and non-empty, it occurs somewhere inside the netloc. -/
def validate_url (url : List Char) (required_domain : Option (List Char)) : Bool :=
  let r := urlparseModel url
  if !(r.1 ≠ [] ∧ r.2 ≠ [] : Bool) then false
  else
    match required_domain with
    | none => true
    | some d => if d ≠ [] ∧ ¬containsSub d r.2 then false else true

/-- An environment in which every browser attempt prints one ErrorLine and
exits with code 1. -/
def envAllFailWithErrorLine : List Char → AttemptOutcome :=
  fun _ => .completed ["ERROR: giving up after 3 retries\n".toList] 1

/- ## Helper lemmas -/

theorem containsSub_nil (l : List Char) : containsSub [] l = true := by
  cases l <;> simp [containsSub, List.isPrefixOf]

theorem isPrefixOf_append_self (l t : List Char) : l.isPrefixOf (l ++ t) = true := by
  induction l with
  | nil => simp
  | cons c cs ih => simp [List.cons_append, List.isPrefixOf_cons₂, ih]

theorem length_dropWhile_le (p : Char → Bool) (l : List Char) :
    (l.dropWhile p).length ≤ l.length := by
  induction l with
  | nil => simp
  | cons c t ih =>
    rw [List.dropWhile_cons]
    split
    · exact Nat.le_trans ih (by simp)
    · simp

theorem pyReplaceFuel_of_not_contains (pat rep : List Char) (fuel : Nat) :
    ∀ l, containsSub pat l = false → pyReplaceFuel pat rep fuel l = l := by
  induction fuel with
  | zero => intro l _; rfl
  | succ f ih =>
    intro l h
    cases l with
    | nil => rfl
    | cons c rest =>
      simp only [containsSub, Bool.or_eq_false_iff] at h
      simp only [pyReplaceFuel]
      rw [if_neg, ih rest h.2]
      rintro ⟨-, hp⟩
      rw [h.1] at hp
      exact Bool.false_ne_true hp

theorem pyReplace_of_marker_once (p : Char) (ps rep rest : List Char)
    (hnc : containsSub (p :: ps) rest = false) :
    pyReplace (p :: ps) rep ((p :: ps) ++ rest) = rep ++ rest := by
  rw [pyReplace, List.cons_append, List.length_cons]
  simp only [pyReplaceFuel]
  rw [if_pos ⟨by simp, by rw [← List.cons_append]; exact isPrefixOf_append_self _ _⟩]
  congr 1
  rw [show (p :: ps).length - 1 = ps.length by simp]
  rw [List.drop_left]
  exact pyReplaceFuel_of_not_contains _ _ _ _ hnc

theorem dropWhile_eq_self_of_length (p : Char → Bool) (l : List Char)
    (h : (l.dropWhile p).length = l.length) : l.dropWhile p = l := by
  cases l with
  | nil => rfl
  | cons c t =>
    by_cases hc : p c
    · exfalso
      rw [List.dropWhile_cons, if_pos hc] at h
      have := length_dropWhile_le p t
      simp only [List.length_cons] at h
      omega
    · rw [List.dropWhile_cons, if_neg hc]

theorem pyLstrip_cons_of_not_space (c : Char) (l : List Char)
    (hc : pyIsSpace c = false) : pyLstrip (c :: l) = c :: l := by
  simp [pyLstrip, List.dropWhile_cons, hc]

theorem pyRstrip_concat_of_not_space (l : List Char) (c : Char)
    (hc : pyIsSpace c = false) : pyRstrip (l ++ [c]) = l ++ [c] := by
  simp [pyRstrip, List.dropWhile_cons, hc]

/-- If a line starting with a non-space character is unchanged by
`pyStrip`, so is any other line with the same tail and a non-space-headed
replacement front (the tail decides the right end, the front head the left). -/
theorem pyStrip_eq_self_transfer (mh qh : Char) (mt qt rest : List Char)
    (hmh : pyIsSpace mh = false) (hqh : pyIsSpace qh = false)
    (hq0 : pyStrip (qh :: qt) = qh :: qt)
    (h : pyStrip ((mh :: mt) ++ rest) = (mh :: mt) ++ rest) :
    pyStrip ((qh :: qt) ++ rest) = (qh :: qt) ++ rest := by
  rcases hr : rest.reverse with _ | ⟨c, u⟩
  · have hrest : rest = [] := by
      have := congrArg List.reverse hr
      simpa using this
    subst hrest
    simpa using hq0
  · have hrest : rest = u.reverse ++ [c] := by
      have := congrArg List.reverse hr
      simpa using this
    subst hrest
    have hc : pyIsSpace c = false := by
      by_contra hcs
      rw [Bool.not_eq_false] at hcs
      rw [List.cons_append] at h
      rw [pyStrip, pyLstrip_cons_of_not_space _ _ hmh] at h
      have hlen := congrArg List.length h
      rw [pyRstrip] at hlen
      rw [List.length_reverse] at hlen
      have hd : (mh :: (mt ++ (u.reverse ++ [c]))).reverse.dropWhile pyIsSpace =
          (mh :: (mt ++ (u.reverse ++ [c]))).reverse := by
        apply dropWhile_eq_self_of_length
        rw [hlen, List.length_reverse]
      rw [show (mh :: (mt ++ (u.reverse ++ [c]))).reverse =
            c :: (u.reverse.reverse ++ (mh :: mt).reverse) by
          simp] at hd
      rw [List.dropWhile_cons, if_pos hcs] at hd
      have := congrArg List.length hd
      have hle := length_dropWhile_le pyIsSpace
        (u.reverse.reverse ++ (mh :: mt).reverse)
      simp only [List.length_cons] at this
      omega
    rw [pyStrip, List.cons_append, pyLstrip_cons_of_not_space _ _ hqh,
      ← List.cons_append, ← List.append_assoc]
    exact pyRstrip_concat_of_not_space _ _ hc

/-- Cursor position after one step of the render loop, fully characterised
by the category of the event and (for IGNORE) whether a spinner frame is
emitted from the current state. -/
theorem stepState_cursor (s : RenderSt) (e : Event) :
    cursorAtLineStart (stepState s e) =
      (match e.1 with
       | LineCategory.progress => false
       | LineCategory.statusInfo => true
       | LineCategory.statusMerge => true
       | LineCategory.errorLine => true
       | LineCategory.ignore =>
         if spinnerEmits s then false else cursorAtLineStart s) := by
  obtain ⟨cat, msg⟩ := e
  cases cat with
  | progress => rfl
  | statusInfo => rfl
  | statusMerge => rfl
  | errorLine => rfl
  | ignore =>
    by_cases hdp : s.displayingProgress
    · simp [stepState, processEvent, cursorAtLineStart, spinnerEmits, hdp]
    · by_cases hc : (s.spinnerCounter + 1) % 5 == 0
      · simp [stepState, processEvent, cursorAtLineStart, spinnerEmits, hdp, hc]
      · simp [stepState, processEvent, cursorAtLineStart, spinnerEmits, hdp, hc]

/-- An attempt is recorded as successful exactly when its backend
invocation completed with exit code 0 (independent of the incoming
last-error text). -/
theorem runAttempt_succeeded (b : List Char) (o : AttemptOutcome) (le : List Char) :
    (runAttempt b o le).succeeded = outcomeSucceeds o := by
  cases o with
  | completed lines code =>
    simp only [runAttempt, outcomeSucceeds]
    split
    · next h => simp [h]
    · next h => simp [Bool.not_eq_true] at h; simp [h]
  | calledProcessError m => rfl
  | unexpectedExc m => rfl

/-- The browser loop performs one invocation per candidate up to and
including the first success, and its success flag is exactly "some
candidate succeeded". -/
theorem runBrowsers_spec (env : List Char → AttemptOutcome) (bs : List (List Char)) :
    ∀ le,
      (runBrowsers env bs le).1 =
        (match firstSuccessIdx env bs with
         | some k => k + 1
         | none => bs.length) ∧
      (runBrowsers env bs le).2.1 = (firstSuccessIdx env bs).isSome := by
  induction bs with
  | nil => intro le; exact ⟨rfl, rfl⟩
  | cons b rest ih =>
    intro le
    simp only [runBrowsers, firstSuccessIdx]
    by_cases h : outcomeSucceeds (env b) = true
    · simp [runAttempt_succeeded, h]
    · simp only [Bool.not_eq_true] at h
      have hr := ih (runAttempt b (env b) le).lastError
      simp only [runAttempt_succeeded, h, Bool.false_eq_true, if_false]
      refine ⟨?_, ?_⟩
      · rw [hr.1]
        cases hf : firstSuccessIdx env rest <;> simp [hf]
      · rw [hr.2]
        cases hf : firstSuccessIdx env rest <;> simp [hf]

/-- Claim C1 (code evaluation at the failing input): during a failed chrome
attempt whose output contains the line "ERROR: giving up after 3 retries",
the renderer does capture that ErrorLine text into the last-error variable,
but after the non-zero exit the controller checks for the literal substring
"ERROR_LINE" in the message (src line 257), which is absent, so the retained
failure reason is the synthesized generic message — not the ErrorLine text
the spec says is retained. -/
theorem claim_C1_code_eval :
    (processLines (initAttemptRenderState "Unknown error.".toList)
        ["ERROR: giving up after 3 retries\n".toList]).1.lastErrorMessage =
      "ERROR: giving up after 3 retries".toList ∧
    (runAttempt "chrome".toList
        (AttemptOutcome.completed ["ERROR: giving up after 3 retries\n".toList] 1)
        "Unknown error.".toList).lastError =
      "yt-dlp exited with code 1 using chrome.".toList ∧
    (runAttempt "chrome".toList
        (AttemptOutcome.completed ["ERROR: giving up after 3 retries\n".toList] 1)
        "Unknown error.".toList).lastError ≠
      "ERROR: giving up after 3 retries".toList := by
  refine ⟨by decide, by decide, by decide⟩

/-- Claim C2: over the fixed candidate list, the controller performs exactly
k invocations when the k-th attempt is the first to exit with code 0 (and
reports success), and performs exactly N = 6 invocations and raises a
DownloadError carrying the last known error message when all attempts
fail. -/
theorem claim_C2 (env : List Char → AttemptOutcome) :
    SUPPORTED_BROWSERS.length = 6 ∧
    (download env).invocations =
      (match firstSuccessIdx env SUPPORTED_BROWSERS with
       | some k => k + 1
       | none => SUPPORTED_BROWSERS.length) ∧
    (download env).success = (firstSuccessIdx env SUPPORTED_BROWSERS).isSome ∧
    (download env).result =
      (if (firstSuccessIdx env SUPPORTED_BROWSERS).isSome then Except.ok ()
       else Except.error ("All browser attempts failed. Last known error: ".toList ++
         (download env).lastError)) := by
  have h := runBrowsers_spec env SUPPORTED_BROWSERS "Unknown error.".toList
  refine ⟨rfl, h.1, h.2, ?_⟩
  show (if (runBrowsers env SUPPORTED_BROWSERS "Unknown error.".toList).2.1 then _ else _) = _
  rw [h.2]
  rfl

/-- Claim C4 (amended): at the start of every attempt the four per-attempt
render fields are freshly reset — cursor at line start, spinner phase and
counter zero, not displaying progress — while the last-error text is not
reset: it is the controller variable threaded in from the previous
attempts. -/
theorem claim_C4_amended (env : List Char → AttemptOutcome) (i : Nat) :
    cursorAtLineStart (initAttemptRenderState (lastErrorBeforeAttempt env i)) = true ∧
    (initAttemptRenderState (lastErrorBeforeAttempt env i)).spinnerIdx = 0 ∧
    (initAttemptRenderState (lastErrorBeforeAttempt env i)).spinnerCounter = 0 ∧
    (initAttemptRenderState (lastErrorBeforeAttempt env i)).displayingProgress = false ∧
    (initAttemptRenderState (lastErrorBeforeAttempt env i)).lastErrorMessage =
      lastErrorBeforeAttempt env i :=
  ⟨rfl, rfl, rfl, rfl, rfl⟩

/-- Claim C4 (counterexample): when every attempt fails after printing an
ErrorLine, the render state at the start of attempt 2 differs from the
state attempt 1 started from — the last-error field carries the failure
message of attempt 1 instead of being reset. -/
theorem claim_C4_counterexample :
    (initAttemptRenderState (lastErrorBeforeAttempt envAllFailWithErrorLine 2)).lastErrorMessage =
      "yt-dlp exited with code 1 using chrome.".toList ∧
    (initAttemptRenderState (lastErrorBeforeAttempt envAllFailWithErrorLine 2)).lastErrorMessage ≠
      (initAttemptRenderState (lastErrorBeforeAttempt envAllFailWithErrorLine 1)).lastErrorMessage := by
  refine ⟨by decide, by decide⟩

/-- Claim C5 (code evaluation at the failing input): when a required tool is
missing, the DependencyError escapes the constructor before run begins, so
the process exits 1 with no logged handler message and without running the
cleanup step — whereas an error raised inside run (for example an
interrupt) exits 1 with a logged message and with cleanup run. -/
theorem claim_C5_code_eval :
    mainModel (ProgramEvent.depsMissing ["yt-dlp".toList]) =
      { exitCode := 1, cleanupRan := false, loggedErrorMsg := none } ∧
    mainModel (ProgramEvent.runBody TryBodyEvent.interrupt) =
      { exitCode := 1, cleanupRan := true,
        loggedErrorMsg := some "\nOperation cancelled by user.".toList } :=
  ⟨rfl, rfl⟩

/-- Claim C6: after any finite event sequence, the cursor is mid-line
exactly after a Progress event or an Ignore event that emitted a spinner
frame, and at line start after StatusInfo, StatusMerge or ErrorLine; an
Ignore event that emits nothing leaves the cursor flag unchanged. -/
theorem claim_C6 (evs : List Event) (e : Event) :
    cursorAtLineStart
        (runEvents (initAttemptRenderState "Unknown error.".toList) (evs ++ [e])) =
      (match e.1 with
       | LineCategory.progress => false
       | LineCategory.statusInfo => true
       | LineCategory.statusMerge => true
       | LineCategory.errorLine => true
       | LineCategory.ignore =>
         if spinnerEmits (runEvents (initAttemptRenderState "Unknown error.".toList) evs)
         then false
         else cursorAtLineStart
           (runEvents (initAttemptRenderState "Unknown error.".toList) evs)) := by
  simp only [runEvents, List.foldl_append, List.foldl_cons, List.foldl_nil]
  exact stepState_cursor _ e

/-- Claim C7: an Ignore event processed while the showing-progress flag is
true performs no display write and leaves every render-state field
unchanged. -/
theorem claim_C7 (s : RenderSt) (msg : Option (List Char))
    (h : s.displayingProgress = true) :
    processEvent s (LineCategory.ignore, msg) = (s, []) := by
  simp [processEvent, h]

/-- Witness for C7 at a concrete state with the showing-progress flag set. -/
theorem claim_C7_witness :
    ({ lastLineEndedWithCr := true, displayingProgress := true, spinnerIdx := 3,
       spinnerCounter := 4, lastErrorMessage := [] } : RenderSt).displayingProgress = true ∧
    processEvent
      { lastLineEndedWithCr := true, displayingProgress := true, spinnerIdx := 3,
        spinnerCounter := 4, lastErrorMessage := [] }
      (LineCategory.ignore, none) =
      ({ lastLineEndedWithCr := true, displayingProgress := true, spinnerIdx := 3,
         spinnerCounter := 4, lastErrorMessage := [] }, []) :=
  ⟨rfl, claim_C7 _ none rfl⟩

/-- Claim C8: classification is total, and every line matching none of the
guards of rules 1-8 is classified Ignore with no text. -/
theorem claim_C8 (l : List Char) (h : matchesAnyRule l = false) :
    clean_progress_output l = (LineCategory.ignore, none) := by
  simp only [matchesAnyRule, Bool.or_eq_false_iff] at h
  obtain ⟨⟨⟨⟨⟨⟨⟨h1, h2⟩, h3⟩, h4⟩, h5⟩, h6⟩, h7⟩, h8⟩ := h
  simp [clean_progress_output, h1, h2, h3, h4, h5, h6, h7, h8]

/-- Witness for C8 on a concrete unrecognised line. -/
theorem claim_C8_witness :
    matchesAnyRule "Deleting original file video.f303.mp4 (pass -k to keep)".toList = false ∧
    clean_progress_output "Deleting original file video.f303.mp4 (pass -k to keep)".toList =
      (LineCategory.ignore, none) :=
  ⟨by decide, claim_C8 _ (by decide)⟩

/-- Claim C10: no reachable path of the try block produces a URLError — the
declared class has a dedicated handler and exit path in run, but invalid
URLs are dealt with by re-prompting, so the handler is dead code. -/
theorem claim_C10 :
    (∀ ev e, tryBody ev = Except.error e → ∀ msg, e ≠ RunException.urlError msg) ∧
    (∀ msg, handleRun (Except.error (RunException.urlError msg)) =
      { exitCode := 1, cleanupRan := true,
        loggedErrorMsg := some ("URL Error: ".toList ++ msg) }) := by
  constructor
  · intro ev e h msg
    cases ev with
    | interrupt =>
      simp only [tryBody, Except.error.injEq] at h
      subst h
      simp
    | unexpectedExc m =>
      simp only [tryBody, Except.error.injEq] at h
      subst h
      simp
    | prompts v r env =>
      simp only [tryBody] at h
      cases hr : (download env).result with
      | ok u =>
        rw [hr] at h
        simp at h
      | error m =>
        rw [hr] at h
        simp only [Except.error.injEq] at h
        subst h
        simp
  · intro msg
    rfl

/-- Witness for C10: a concrete erroring run of the try block, whose
exception is not a URLError. -/
theorem claim_C10_witness :
    tryBody TryBodyEvent.interrupt = Except.error RunException.keyboardInterrupt ∧
    RunException.keyboardInterrupt ≠ RunException.urlError [] :=
  ⟨rfl, claim_C10.1 TryBodyEvent.interrupt RunException.keyboardInterrupt rfl []⟩

/-- Claim C9: `validate_url(url, d)` accepts exactly when the parsed URL has
a non-empty scheme, a non-empty netloc, and `d` occurs as a substring of
the netloc — so a host that merely embeds the required fragment, such as
player.vimeo.com.attacker.example, passes the player-URL validation used at
the prompt. -/
theorem claim_C9 :
    (∀ url d, validate_url url (some d) =
      (decide ((urlparseModel url).1 ≠ []) &&
       decide ((urlparseModel url).2 ≠ []) &&
       containsSub d (urlparseModel url).2)) ∧
    validate_url "https://player.vimeo.com.attacker.example/video/123".toList
      (some "player.vimeo.com".toList) = true := by
  constructor
  · intro url d
    simp only [validate_url]
    by_cases h1 : (urlparseModel url).1 = []
    · simp [h1]
    · by_cases h2 : (urlparseModel url).2 = []
      · simp [h1, h2]
      · by_cases h3 : d = []
        · subst h3
          simp [h1, h2, containsSub_nil]
        · by_cases h4 : containsSub d (urlparseModel url).2 = true
          · simp [h1, h2, h3, h4]
          · simp only [Bool.not_eq_true] at h4
            simp [h1, h2, h3, h4]
  · decide

/-- Claim C3 (counterexample): a line satisfying all four conditions of the
claim but containing the marker a second time — the source replaces every
occurrence, so the rest of the line is not preserved verbatim. -/
theorem claim_C3_counterexample :
    "[download]".toList.isPrefixOf "[download] 9% of 5MiB [download]".toList = true ∧
    containsSub "%".toList "[download] 9% of 5MiB [download]".toList = true ∧
    containsSub "MiB".toList "[download] 9% of 5MiB [download]".toList = true ∧
    containsSub " of ".toList "[download] 9% of 5MiB [download]".toList = true ∧
    clean_progress_output "[download] 9% of 5MiB [download]".toList =
      (LineCategory.progress, some "Progress: 9% of 5MiB Progress:".toList) ∧
    "Progress: 9% of 5MiB Progress:".toList ≠
      "Progress: 9% of 5MiB [download]".toList := by
  refine ⟨by decide, by decide, by decide, by decide, by decide, by decide⟩

/-- Claim C3 (amended): for every line of the form marker ++ rest that is
unchanged by stripping, contains a percent sign, a byte-unit token and
" of ", and contains the marker only as its leading occurrence, classify
returns Progress with the marker replaced by "Progress:" and the rest
preserved verbatim. -/
theorem claim_C3_amended (rest : List Char)
    (hstrip : pyStrip ("[download]".toList ++ rest) = "[download]".toList ++ rest)
    (hnodup : containsSub "[download]".toList rest = false)
    (hpct : containsSub "%".toList ("[download]".toList ++ rest) = true)
    (hunit : (containsSub "MiB".toList ("[download]".toList ++ rest) ||
              containsSub "KiB".toList ("[download]".toList ++ rest) ||
              containsSub "GiB".toList ("[download]".toList ++ rest) ||
              containsSub "bytes".toList ("[download]".toList ++ rest)) = true)
    (hof : containsSub " of ".toList ("[download]".toList ++ rest) = true) :
    clean_progress_output ("[download]".toList ++ rest) =
      (LineCategory.progress, some ("Progress:".toList ++ rest)) := by
  have hguard : progressGuard ("[download]".toList ++ rest) = true := by
    simp only [Bool.or_eq_true] at hunit
    simp only [progressGuard, Bool.and_eq_true, Bool.or_eq_true]
    exact ⟨⟨⟨isPrefixOf_append_self _ _, hpct⟩, hunit⟩, hof⟩
  have hrepl : pyReplace "[download]".toList "Progress:".toList
      ("[download]".toList ++ rest) = "Progress:".toList ++ rest :=
    pyReplace_of_marker_once '[' "download]".toList _ _ hnodup
  have hstrip2 : pyStrip ("Progress:".toList ++ rest) = "Progress:".toList ++ rest := by
    refine pyStrip_eq_self_transfer '[' 'P' "download]".toList "rogress:".toList rest
      (by decide) (by decide) (by decide) hstrip
  simp only [clean_progress_output]
  rw [hstrip, if_pos hguard, hrepl, hstrip2]

/-- Witness for C3 (amended) at the spec scenario line. -/
theorem claim_C3_witness :
    pyStrip ("[download]".toList ++ "  42.0% of  120.50MiB at  5.00MiB/s ETA 00:10".toList) =
      "[download]".toList ++ "  42.0% of  120.50MiB at  5.00MiB/s ETA 00:10".toList ∧
    containsSub "[download]".toList "  42.0% of  120.50MiB at  5.00MiB/s ETA 00:10".toList = false ∧
    clean_progress_output
        ("[download]".toList ++ "  42.0% of  120.50MiB at  5.00MiB/s ETA 00:10".toList) =
      (LineCategory.progress,
       some ("Progress:".toList ++ "  42.0% of  120.50MiB at  5.00MiB/s ETA 00:10".toList)) :=
  ⟨by decide, by decide,
   claim_C3_amended _ (by decide) (by decide) (by decide) (by decide) (by decide)⟩
